import Mathlib

/-!
# Verification of the WGPU/winit renderer core

Shallow embedding of the render-state lifecycle and frame pipeline of the
repository (`src/lib.rs`, `src/resources.rs`).  Scalar values that the Rust
code holds in `f32`/`f64` are modelled as exact rationals (`ℚ`); every
computation the claims touch is exact at this granularity (grid positions are
integer-valued, clear colors are fixed decimal literals, matrix products of a
translation matrix with a rotation matrix copy entries).  GPU handles
(device, queue, pipeline) carry no data relevant to the claims and are
omitted; buffers and bind groups are modelled by their identifying content.

The repository modules `camera.rs`, `camera_controller.rs`, `texture.rs` and
`model.rs` are referenced from `lib.rs`/`resources.rs` but are absent from
the sources; the handful of definitions needed from them are modelled from
the specification and marked `Modelled from the spec:` in their doc comments.
-/

namespace Render

/-- `cgmath::Vector3<f32>`, with exact rational components. -/
structure Vec3 where
  x : ℚ
  y : ℚ
  z : ℚ
deriving DecidableEq

/-- `winit::dpi::PhysicalSize<u32>`: a window size in pixels. -/
structure PhysicalSize where
  width : Nat
  height : Nat
deriving DecidableEq

/-- The fields of `wgpu::SurfaceConfiguration` the program reads or writes:
`format` is kept opaque, `width`/`height` are the surface dimensions. -/
structure SurfaceConfiguration where
  format : Nat
  width : Nat
  height : Nat
deriving DecidableEq

/-- Modelled from the spec: `camera.rs` is absent from the sources.  §3 gives
the camera's data model: `{eye, target, up, aspect, fovy, znear, zfar}`.
`GameState::resize` in `lib.rs` writes the `aspect` field directly. -/
structure Camera where
  eye : Vec3
  target : Vec3
  up : Vec3
  aspect : ℚ
  fovy : ℚ
  znear : ℚ
  zfar : ℚ
deriving DecidableEq

/-- A GPU texture, identified by its pixel dimensions (the only attribute the
claims inspect). -/
structure Texture where
  width : Nat
  height : Nat
deriving DecidableEq

/-- Modelled from the spec: `texture.rs` is absent from the sources.  §3:
"depth buffer dimensions always match the surface configuration"; §4.3:
"recreate the depth buffer at the new dimensions".  So
`Texture::create_depth_texture(device, config, label)` produces a texture
sized from the surface configuration. -/
def Texture.create_depth_texture (config : SurfaceConfiguration) (_label : String) : Texture :=
  ⟨config.width, config.height⟩

/-! ## The instance grid (`GameState::new`, lib.rs lines 109–134)

The grid's rotation quaternions involve `sin`/`cos` of 22.5° and normalised
position vectors, which are irrational; they are therefore kept symbolic: an
`Axis` is either the literal `cgmath::Vector3::unit_z()` or the normalisation
`v.normalize()` of a recorded vector, and a `RotationSpec` records the exact
`Quaternion::from_axis_angle` call the code makes.  Positions themselves are
exact: `3.0 * (i as f32 - 10.0/2.0)` for `i ∈ 0..10` is an integer, computed
without rounding in `f32`. -/

/-- The axis argument of `cgmath::Quaternion::from_axis_angle` as the code
builds it: either `unit_z()` or `position.normalize()` for a recorded
`position`. -/
inductive Axis where
  | unit_z : Axis
  | normalize (v : Vec3) : Axis
deriving DecidableEq

/-- A symbolic `cgmath::Quaternion<f32>` value, recorded as the
`from_axis_angle(axis, Deg(degrees))` call that produced it. -/
inductive RotationSpec where
  | from_axis_angle (axis : Axis) (degrees : ℚ) : RotationSpec
deriving DecidableEq

/-- `from_axis_angle(axis, 0°)` is the identity quaternion: the quaternion is
`(cos(d/2), sin(d/2)·axis)` and `sin 0 = 0`, `cos 0 = 1` exactly, for any
axis. -/
def RotationSpec.isIdentity : RotationSpec → Prop
  | .from_axis_angle _ d => d = 0

instance (r : RotationSpec) : Decidable r.isIdentity := by
  cases r with
  | from_axis_angle a d => exact inferInstanceAs (Decidable (d = 0))

/-- One element of the `instances` vector built in `GameState::new`
(the source's `Instances` struct, with the rotation kept symbolic). -/
structure InstanceSym where
  position : Vec3
  rotation : RotationSpec
deriving DecidableEq

/-- `let num_instances_per_row = 10;` (lib.rs line 109). -/
def num_instances_per_row : Nat := 10

/-- The body of the innermost closure of the instance-grid construction in
`GameState::new` (lib.rs lines 113–131): position `3.0 * (i - 10/2)` per
axis (an exact integer in `f32`), rotation `from_axis_angle(unit_z, 0°)`
when the position is the zero vector (`is_zero` is exact equality), else
`from_axis_angle(position.normalize(), 45°)`. -/
def gridInstance (z x y : Nat) : InstanceSym :=
  let space_between : ℚ := 3
  let position : Vec3 :=
    ⟨space_between * ((x : ℚ) - (num_instances_per_row : ℚ) / 2),
     space_between * ((y : ℚ) - (num_instances_per_row : ℚ) / 2),
     space_between * ((z : ℚ) - (num_instances_per_row : ℚ) / 2)⟩
  let rotation : RotationSpec :=
    if position = ⟨0, 0, 0⟩ then
      .from_axis_angle .unit_z 0
    else
      .from_axis_angle (.normalize position) 45
  ⟨position, rotation⟩

/-- The instance grid of `GameState::new` (lib.rs lines 110–134): `z`, `x`,
`y` each range over `0..10`, nested in that order. -/
def instancesGrid : List InstanceSym :=
  (List.range num_instances_per_row).flatMap fun z =>
    (List.range num_instances_per_row).flatMap fun x =>
      (List.range num_instances_per_row).map fun y => gridInstance z x y

/-! ## Instance raw transforms (`Instances::to_raw`, lib.rs lines 65–73)

`to_raw` computes `Matrix4::from_translation(position) * Matrix4::from(rotation)`
over `f32`.  Here the claim quantifies over arbitrary positions and
quaternions, so the quaternion is a concrete value with rational components
(`cgmath::Quaternion { s, v }`), and the two `cgmath` constructors plus the
matrix product are embedded by their defining formulas.  Every entry of this
particular product is an exact copy of an entry of one factor (multiplications
by `0` and `1` only), so the rational model agrees with `f32` bit-for-bit. -/

/-- `cgmath::Vector4<f32>`. -/
structure Vec4 where
  x : ℚ
  y : ℚ
  z : ℚ
  w : ℚ
deriving DecidableEq

/-- `cgmath::Matrix4<f32>`: four columns `x y z w`, as in cgmath. -/
structure Mat4 where
  x : Vec4
  y : Vec4
  z : Vec4
  w : Vec4
deriving DecidableEq

/-- `cgmath::Quaternion<f32>`: scalar part `s` and vector part `v`. -/
structure Quaternion where
  s : ℚ
  v : Vec3
deriving DecidableEq

/-- Matrix–vector product: the linear combination of the matrix's columns by
the vector's components (cgmath's `Matrix4 * Vector4`). -/
def Mat4.mulVec (m : Mat4) (v : Vec4) : Vec4 :=
  ⟨m.x.x * v.x + m.y.x * v.y + m.z.x * v.z + m.w.x * v.w,
   m.x.y * v.x + m.y.y * v.y + m.z.y * v.z + m.w.y * v.w,
   m.x.z * v.x + m.y.z * v.y + m.z.z * v.z + m.w.z * v.w,
   m.x.w * v.x + m.y.w * v.y + m.z.w * v.z + m.w.w * v.w⟩

/-- Matrix product, column by column (cgmath's `Matrix4 * Matrix4`). -/
def Mat4.mul (a b : Mat4) : Mat4 :=
  ⟨a.mulVec b.x, a.mulVec b.y, a.mulVec b.z, a.mulVec b.w⟩

/-- `cgmath::Matrix4::from_translation(v)`: identity columns, translation in
the fourth column. -/
def Matrix4.from_translation (v : Vec3) : Mat4 :=
  ⟨⟨1, 0, 0, 0⟩, ⟨0, 1, 0, 0⟩, ⟨0, 0, 1, 0⟩, ⟨v.x, v.y, v.z, 1⟩⟩

/-- `cgmath`'s `From<Quaternion<S>> for Matrix4<S>` conversion: the standard
quaternion-to-rotation-matrix formula, column-major as in the cgmath source. -/
def Matrix4.from_quaternion (q : Quaternion) : Mat4 :=
  let x2 := q.v.x + q.v.x
  let y2 := q.v.y + q.v.y
  let z2 := q.v.z + q.v.z
  let xx2 := x2 * q.v.x
  let xy2 := x2 * q.v.y
  let xz2 := x2 * q.v.z
  let yy2 := y2 * q.v.y
  let yz2 := y2 * q.v.z
  let zz2 := z2 * q.v.z
  let sy2 := y2 * q.s
  let sz2 := z2 * q.s
  let sx2 := x2 * q.s
  ⟨⟨1 - yy2 - zz2, xy2 + sz2, xz2 - sy2, 0⟩,
   ⟨xy2 - sz2, 1 - xx2 - zz2, yz2 + sx2, 0⟩,
   ⟨xz2 + sy2, yz2 - sx2, 1 - xx2 - yy2, 0⟩,
   ⟨0, 0, 0, 1⟩⟩

/-- The source's `Instances` struct, with a concrete quaternion rotation
(the form `to_raw` consumes). -/
structure Instances where
  position : Vec3
  rotation : Quaternion
deriving DecidableEq

/-- The source's `InstanceRaw` struct: a 4×4 matrix in the column order
produced by `Matrix4`'s `Into<[[f32; 4]; 4]>`. -/
structure InstanceRaw where
  model : Mat4
deriving DecidableEq

/-- `Instances::to_raw` (lib.rs lines 65–73):
`Matrix4::from_translation(self.position) * Matrix4::from(self.rotation)`. -/
def Instances.to_raw (i : Instances) : InstanceRaw :=
  ⟨(Matrix4.from_translation i.position).mul (Matrix4.from_quaternion i.rotation)⟩

/-- The spec's wording of §4.5, stated independently of the matrix product:
"a 4×4 matrix equal to translation(position) composed with
rotation(quaternion)" — the rotation matrix of the quaternion with the
position placed in the fourth (translation) column. -/
def translationComposedRotation (p : Vec3) (q : Quaternion) : Mat4 :=
  { Matrix4.from_quaternion q with w := ⟨p.x, p.y, p.z, 1⟩ }


/-! ## Model and loader types (`model.rs` fields as used by `resources.rs`)

The `model.rs` module itself is absent from the sources, but the shapes of
`Model`, `Mesh`, `Material` and `ModelVertex` are pinned by how
`resources.rs` constructs them.  `wgpu` buffers and bind groups are modelled
by the content they are created from (`create_buffer_init` /
`create_bind_group` are pure functions of their descriptors here; device-side
identity plays no role in any claim). -/

/-- A vertex as built by `load_model` (`model::ModelVertex`):
position, texture coordinates, normal. -/
structure ModelVertex where
  position : Vec3
  tex_u : ℚ
  tex_v : ℚ
  normal : Vec3
deriving DecidableEq

/-- The content a `wgpu::Buffer` is created from (`create_buffer_init`). -/
inductive BufferContents where
  | vertexData (vertices : List ModelVertex)
  | indexData (indices : List Nat)
  | instanceData (data : List InstanceRaw)
  | cameraUniform
deriving DecidableEq

/-- A `wgpu::Buffer`, identified by its label and initial contents. -/
structure Buffer where
  label : String
  contents : BufferContents
deriving DecidableEq

/-- A `wgpu::BindGroup`, identified by the resources bound into it: either a
material's diffuse texture + sampler, or the camera uniform buffer. -/
inductive BindGroup where
  | texture (diffuse : Texture)
  | uniformBuffer (buf : Buffer)
deriving DecidableEq

/-- `model::Material` as constructed in `resources.rs` lines 78–82. -/
structure Material where
  name : String
  diffuse_texture : Texture
  bind_group : BindGroup
deriving DecidableEq

/-- `model::Mesh` as constructed in `resources.rs` lines 132–138. -/
structure Mesh where
  name : String
  vertex_buffer : Buffer
  index_buffer : Buffer
  num_elements : Nat
  material : Nat
deriving DecidableEq

/-- `model::Model`: meshes plus materials. -/
structure Model where
  meshes : List Mesh
  materials : List Material
deriving DecidableEq

/-- Load/`anyhow` errors are opaque messages. -/
def LoadError := String
deriving instance DecidableEq for LoadError

/-- The mesh data of one `tobj::Model` (the fields `load_model` reads).
`tobj` is an external crate; its output is an input of the embedding. -/
structure TobjMeshData where
  positions : List ℚ
  normals : List ℚ
  texcoords : List ℚ
  indices : List Nat
  material_id : Option Nat
deriving DecidableEq

/-- One `tobj::Model`. -/
structure TobjModel where
  name : String
  mesh : TobjMeshData
deriving DecidableEq

/-- The fields of a `tobj::Material` that `load_model` reads. -/
structure TobjMaterial where
  name : String
  diffuse_texture : String
deriving DecidableEq

/-- Map `f` over a list, failing (panicking) as soon as `f` does — the
semantics of a Rust loop whose body can panic. -/
def optionTraverse {α β : Type} (f : α → Option β) : List α → Option (List β)
  | [] => some []
  | a :: as => do
      let b ← f a
      let bs ← optionTraverse f as
      pure (b :: bs)

/-- Map `f` over a list, returning the first error — the semantics of a Rust
`for` loop whose body uses `?`. -/
def exceptTraverse {α β ε : Type} (f : α → Except ε β) : List α → Except ε (List β)
  | [] => .ok []
  | a :: as =>
    match f a with
    | .error e => .error e
    | .ok b =>
      match exceptTraverse f as with
      | .error e => .error e
      | .ok bs => .ok (b :: bs)

/-- The vertex built for index `vertex` in `resources.rs` lines 88–117.
Rust's slice indexing panics when out of bounds; `none` models that panic.
When `normals` is empty the normal defaults to `(0,0,0)`. -/
def buildVertex (mesh : TobjMeshData) (vertex : Nat) : Option ModelVertex := do
  let px ← mesh.positions.get? (vertex * 3)
  let py ← mesh.positions.get? (vertex * 3 + 1)
  let pz ← mesh.positions.get? (vertex * 3 + 2)
  let tu ← mesh.texcoords.get? (vertex * 2)
  let tv ← mesh.texcoords.get? (vertex * 2 + 1)
  if mesh.normals.isEmpty then
    pure ⟨⟨px, py, pz⟩, tu, 1 - tv, ⟨0, 0, 0⟩⟩
  else do
    let nx ← mesh.normals.get? (vertex * 3)
    let ny ← mesh.normals.get? (vertex * 3 + 1)
    let nz ← mesh.normals.get? (vertex * 3 + 2)
    pure ⟨⟨px, py, pz⟩, tu, 1 - tv, ⟨nx, ny, nz⟩⟩

/-- The mesh built for one `tobj::Model` in `resources.rs` lines 85–139:
vertices from the flattened position/texcoord/normal arrays, vertex and
index buffers from them, `num_elements` = number of indices, and
`material = mesh.material_id.unwrap_or(0)`. -/
def buildMesh (file_name : String) (model : TobjModel) : Option Mesh := do
  let vertices ← optionTraverse (buildVertex model.mesh) (List.range (model.mesh.positions.length / 3))
  pure
    { name := file_name
      vertex_buffer := ⟨file_name ++ " Vertex Buffer", .vertexData vertices⟩
      index_buffer := ⟨file_name ++ " Index Buffer", .indexData model.mesh.indices⟩
      num_elements := model.mesh.indices.length
      material := model.mesh.material_id.getD 0 }

/-- One iteration of the materials loop in `resources.rs` lines 59–83: load
the diffuse texture (`?` propagates its error), build the texture+sampler
bind group, and record the material. -/
def loadMaterial (loadTexture : String → Except LoadError Texture)
    (material : TobjMaterial) : Except LoadError Material :=
  match loadTexture material.diffuse_texture with
  | .error e => .error e
  | .ok diffuse_texture =>
    .ok
      { name := material.name
        diffuse_texture := diffuse_texture
        bind_group := .texture diffuse_texture }

/-- `resources::load_model` (resources.rs lines 30–143).  The file read and
the `tobj::load_obj_buf_async` call are external effects, so their combined
outcome is a parameter: `objLoad` is the `Result` of the obj parse, carrying
the models together with the deferred `Result` of the material (MTL) parse,
exactly as `tobj` returns them; `loadTexture` is the outcome of
`load_texture` per texture file name.  The materials loop runs first and the
first failing texture load aborts the whole call with that error (`?`); the
meshes are built afterwards.  The outer `Option` models a Rust panic (out of
bounds indexing while building vertices): `none` means the call does not
return. -/
def load_model (file_name : String)
    (objLoad : Except LoadError (List TobjModel × Except LoadError (List TobjMaterial)))
    (loadTexture : String → Except LoadError Texture) :
    Option (Except LoadError Model) :=
  match objLoad with
  | .error e => some (.error e)
  | .ok (models, obj_materials) =>
    match obj_materials with
    | .error e => some (.error e)
    | .ok mats =>
      match exceptTraverse (loadMaterial loadTexture) mats with
      | .error e => some (.error e)
      | .ok materials =>
        match optionTraverse (buildMesh file_name) models with
        | none => none
        | some meshes => some (.ok { meshes := meshes, materials := materials })

/-! ## Game state, resize and render (`lib.rs` lines 47–353)

`GameState`'s GPU handles (`surface`, `device`, `queue`, `render_pipeline`,
`camera_uniform`, `camera_controller`) carry no data any claim inspects and
are omitted; the remaining fields are carried as in the source. -/

/-- The claim-relevant fields of `GameState` (lib.rs lines 47–63). -/
structure GameState where
  config : SurfaceConfiguration
  size : PhysicalSize
  depth_texture : Texture
  camera : Camera
  camera_buffer : Buffer
  camera_bind_group : BindGroup
  instances : List InstanceSym
  instance_buffer : Buffer
  obj_model : Model
deriving DecidableEq

/-- `GameState::resize` (lib.rs lines 285–294): when both dimensions are
positive, write them into the surface configuration, store the new size, set
the camera aspect to `config.width / config.height`, reconfigure the surface
and recreate the depth texture from the updated configuration; otherwise do
nothing. -/
def GameState.resize (s : GameState) (new_size : PhysicalSize) : GameState :=
  if 0 < new_size.width ∧ 0 < new_size.height then
    let config : SurfaceConfiguration :=
      { s.config with width := new_size.width, height := new_size.height }
    { s with
      config := config
      size := new_size
      camera := { s.camera with aspect := (config.width : ℚ) / (config.height : ℚ) }
      depth_texture := Texture.create_depth_texture config "depth_texture" }
  else
    s

/-- `wgpu::SurfaceError`. -/
inductive SurfaceError where
  | timeout
  | outdated
  | lost
  | outOfMemory
deriving DecidableEq

/-- The background clear color of the render pass (`wgpu::Color`). -/
structure Color where
  r : ℚ
  g : ℚ
  b : ℚ
  a : ℚ
deriving DecidableEq

/-- The GPU-visible commands `render` records and submits, in order. -/
inductive Cmd where
  | beginRenderPass (clearColor : Color) (clearDepth : ℚ)
  | setPipeline
  | setVertexBuffer (slot : Nat) (buffer : Buffer)
  | setIndexBuffer (buffer : Buffer)
  | setBindGroup (slot : Nat) (group : BindGroup)
  | drawIndexed (indexStart indexEnd : Nat) (baseVertex : Nat) (instStart instEnd : Nat)
  | endRenderPass
  | submit
  | present
deriving DecidableEq

/-- Modelled from the spec: `model.rs` (the `DrawModel` trait) is absent from
the sources.  §4.4 for a given mesh: "binds its material's bind group
(slot 0) and the camera bind group (slot 1), binds the mesh's vertex buffer
(slot 0) and index buffer, and issues an indexed, instanced draw covering all
indices" over the given instance range. -/
def draw_mesh_instanced (mesh : Mesh) (material : Material)
    (instStart instEnd : Nat) (camera_bind_group : BindGroup) : List Cmd :=
  [Cmd.setBindGroup 0 material.bind_group,
   Cmd.setBindGroup 1 camera_bind_group,
   Cmd.setVertexBuffer 0 mesh.vertex_buffer,
   Cmd.setIndexBuffer mesh.index_buffer,
   Cmd.drawIndexed 0 mesh.num_elements 0 instStart instEnd]

/-- `GameState::render` (lib.rs lines 308–353).  `acquired` is the outcome of
`surface.get_current_texture()`; the acquired texture itself carries no
claim-relevant data.  The source converts that `Result` to an `Option` and
unwraps it (`.ok().unwrap()`), so an acquisition failure is a panic — `none`
in this model.  Indexing `meshes[0]` / `materials[0]` likewise panics when
the respective list is empty.  On the success path the function records one
render pass that clears color to `(0.1, 0.2, 0.3, 1.0)` and depth to `1.0`,
binds vertex-buffer slot 1 to the instance buffer, binds the pipeline, draws
the first mesh with the first material over instance range
`0..instances.len()`, then submits and presents, returning `Ok(())`. -/
def GameState.render (s : GameState) (acquired : Except SurfaceError Unit) :
    Option (Except SurfaceError Unit × List Cmd) :=
  match acquired.toOption with
  | none => none
  | some _output =>
    match s.obj_model.meshes, s.obj_model.materials with
    | mesh0 :: _, material0 :: _ =>
      some (.ok (),
        [Cmd.beginRenderPass ⟨1/10, 2/10, 3/10, 1⟩ 1,
         Cmd.setVertexBuffer 1 s.instance_buffer,
         Cmd.setPipeline]
        ++ draw_mesh_instanced mesh0 material0 0 s.instances.length s.camera_bind_group
        ++ [Cmd.endRenderPass, Cmd.submit, Cmd.present])
    | _, _ => none

/-! ## The frame dispatcher (`App::window_event`, lib.rs lines 392–409) -/

/-- The calls `App::window_event` makes into the game state and event loop
while handling one `RedrawRequested` event. -/
inductive AppCall where
  | update
  | renderCall
  | resizeCall (width height : Nat)
  | exitLoop
  | logError
  | requestRedraw
deriving DecidableEq

/-- How one `RedrawRequested` dispatch ends. -/
inductive FrameOutcome where
  | presented
  | recoveredViaResize
  | terminated
  | logged
  | panicked
deriving DecidableEq

/-- The `WindowEvent::RedrawRequested` arm of `App::window_event`
(lib.rs lines 392–409), reached when the event was not consumed by
`input()`: call `update()`, call `render()`, then match its result —
`Ok` runs `update()` a second time, `Err(Lost)` calls `resize(self.size)`,
`Err(OutOfMemory)` exits the event loop, any other error is printed —
and finally request the next redraw.  A panic inside `render` (`none`)
aborts the dispatch with the calls made so far. -/
def redrawRequested (s : GameState) (acquired : Except SurfaceError Unit) :
    FrameOutcome × List AppCall :=
  match s.render acquired with
  | none => (.panicked, [AppCall.update, AppCall.renderCall])
  | some (result, _) =>
    match result with
    | .ok _ =>
      (.presented,
       [AppCall.update, AppCall.renderCall, AppCall.update, AppCall.requestRedraw])
    | .error .lost =>
      (.recoveredViaResize,
       [AppCall.update, AppCall.renderCall,
        AppCall.resizeCall s.size.width s.size.height, AppCall.requestRedraw])
    | .error .outOfMemory =>
      (.terminated, [AppCall.update, AppCall.renderCall, AppCall.exitLoop])
    | .error _ =>
      (.logged,
       [AppCall.update, AppCall.renderCall, AppCall.logError, AppCall.requestRedraw])

/-- The model-loading step of `GameState::new` (lib.rs line 169):
`resources::load_model("cube.obj", ...).await.unwrap()` — a load error makes
the `unwrap` panic, so no game state is constructed.  `none` models the panic
(and a panic inside `load_model` itself). -/
def gameStateNewModelLoad (r : Option (Except LoadError Model)) : Option Model :=
  match r with
  | some (.ok m) => some m
  | _ => none

/-- Whether a command opens a render pass. -/
def Cmd.isBeginRenderPass : Cmd → Bool
  | .beginRenderPass _ _ => true
  | _ => false

/-- The success contract of §4.4 / claim C1, as stated, evaluated on the
command trace `render` records (vacuous when `render` panics): the result is
`Ok`, exactly one render pass is begun, it clears color to
`(0.1, 0.2, 0.3, 1.0)` and depth to `1.0`, the pipeline is bound, the
instance buffer is bound at vertex-buffer slot 1, and **for each mesh of the
model** the bind group of **that mesh's material** is bound at slot 0, the
camera bind group at slot 1, and an indexed instanced draw covers all of that
mesh's indices over the full instance range; finally the commands are
submitted and the image presented. -/
def claimC1Property (s : GameState) : Prop :=
  match s.render (.ok ()) with
  | none => True
  | some (result, trace) =>
      result = .ok () ∧
      trace.countP Cmd.isBeginRenderPass = 1 ∧
      Cmd.beginRenderPass ⟨1/10, 2/10, 3/10, 1⟩ 1 ∈ trace ∧
      Cmd.setPipeline ∈ trace ∧
      Cmd.setVertexBuffer 1 s.instance_buffer ∈ trace ∧
      (∀ mesh ∈ s.obj_model.meshes,
        (match s.obj_model.materials.get? mesh.material with
         | some material => Cmd.setBindGroup 0 material.bind_group ∈ trace
         | none => False) ∧
        Cmd.setBindGroup 1 s.camera_bind_group ∈ trace ∧
        Cmd.drawIndexed 0 mesh.num_elements 0 0 s.instances.length ∈ trace) ∧
      Cmd.submit ∈ trace ∧
      Cmd.present ∈ trace

/-- The validity invariant of claim C8, as stated, evaluated on a
`load_model` result: every returned mesh's material index is in range of the
returned materials list (vacuous when no model is returned). -/
def materialIndexValidOn (result : Option (Except LoadError Model)) : Prop :=
  match result with
  | some (.ok model) => ∀ mesh ∈ model.meshes, mesh.material < model.materials.length
  | _ => True

/-! ## Concrete states used by witnesses and counterexamples -/

/-- A sample diffuse texture. -/
def texA : Texture := ⟨256, 256⟩

/-- A second sample diffuse texture, distinct from `texA`. -/
def texB : Texture := ⟨128, 128⟩

/-- A sample material bound against `texA`. -/
def matA : Material := ⟨"matA", texA, .texture texA⟩

/-- A second sample material bound against `texB`. -/
def matB : Material := ⟨"matB", texB, .texture texB⟩

/-- A sample mesh with 36 indices referencing material 0. -/
def meshA : Mesh :=
  ⟨"cube.obj", ⟨"cube.obj Vertex Buffer", .vertexData []⟩,
   ⟨"cube.obj Index Buffer", .indexData []⟩, 36, 0⟩

/-- A second sample mesh with 99 indices referencing material 1. -/
def meshB : Mesh :=
  ⟨"cube.obj", ⟨"cube.obj Vertex Buffer", .vertexData []⟩,
   ⟨"cube.obj Index Buffer", .indexData []⟩, 99, 1⟩

/-- The camera uniform buffer of the sample states. -/
def cameraBufferEx : Buffer := ⟨"camera buffer", .cameraUniform⟩

/-- A sample game state with a one-mesh, one-material model at 1280×720. -/
def gsEx : GameState :=
  { config := ⟨0, 1280, 720⟩
    size := ⟨1280, 720⟩
    depth_texture := ⟨1280, 720⟩
    camera := ⟨⟨0, 1, 2⟩, ⟨0, 0, 0⟩, ⟨0, 1, 0⟩, 1280 / 720, 45, 1 / 10, 100⟩
    camera_buffer := cameraBufferEx
    camera_bind_group := .uniformBuffer cameraBufferEx
    instances := [⟨⟨0, 0, 0⟩, .from_axis_angle .unit_z 0⟩]
    instance_buffer := ⟨"Instance Buffer", .instanceData []⟩
    obj_model := ⟨[meshA], [matA]⟩ }

/-- The sample state with a two-mesh, two-material model, the second mesh
referencing material 1. -/
def gsTwoMesh : GameState :=
  { gsEx with obj_model := ⟨[meshA, meshB], [matA, matB]⟩ }

/-- The command trace `render` records for `gsEx` on a successful acquire. -/
def gsExTrace : List Cmd :=
  [Cmd.beginRenderPass ⟨1/10, 2/10, 3/10, 1⟩ 1,
   Cmd.setVertexBuffer 1 gsEx.instance_buffer,
   Cmd.setPipeline,
   Cmd.setBindGroup 0 matA.bind_group,
   Cmd.setBindGroup 1 gsEx.camera_bind_group,
   Cmd.setVertexBuffer 0 meshA.vertex_buffer,
   Cmd.setIndexBuffer meshA.index_buffer,
   Cmd.drawIndexed 0 meshA.num_elements 0 0 gsEx.instances.length,
   Cmd.endRenderPass, Cmd.submit, Cmd.present]

/-- A `tobj` output with one mesh that specifies no material id, used against
claim C8. -/
def tobjModelNoMat : TobjModel := ⟨"cube", ⟨[], [], [], [], none⟩⟩

/-- A sample `tobj` material whose diffuse texture is `"cube-diffuse.jpg"`. -/
def tobjMatEx : TobjMaterial := ⟨"Material", "cube-diffuse.jpg"⟩

/-- The mesh `load_model` builds from `tobjModelNoMat`. -/
def meshW : Mesh :=
  ⟨"cube.obj", ⟨"cube.obj Vertex Buffer", .vertexData []⟩,
   ⟨"cube.obj Index Buffer", .indexData []⟩, 0, 0⟩

/-- The model `load_model` returns for `tobjModelNoMat` and `tobjMatEx` when
every texture loads as `texA`. -/
def modelW : Model := ⟨[meshW], [⟨"Material", texA, .texture texA⟩]⟩

/-! ## Helper lemmas -/

theorem optionTraverse_mem {α β : Type} (f : α → Option β) :
    ∀ (l : List α) (l' : List β), optionTraverse f l = some l' →
      ∀ b ∈ l', ∃ a ∈ l, f a = some b := by
  intro l
  induction l with
  | nil =>
    intro l' h b hb
    simp only [optionTraverse, Option.some.injEq] at h
    subst h
    simp at hb
  | cons a as ih =>
    intro l' h b hb
    cases hfa : f a with
    | none => simp [optionTraverse, hfa] at h
    | some x =>
      cases has : optionTraverse f as with
      | none => simp [optionTraverse, hfa, has] at h
      | some xs =>
        simp only [optionTraverse, hfa, has, Option.pure_def, Option.bind_eq_bind,
          Option.some_bind, Option.some.injEq] at h
        subst h
        rcases List.mem_cons.mp hb with hb | hb
        · exact ⟨a, List.mem_cons_self a as, hb ▸ hfa⟩
        · obtain ⟨a', ha', hfa'⟩ := ih xs has b hb
          exact ⟨a', List.mem_cons_of_mem a ha', hfa'⟩

theorem exceptTraverse_length {α β ε : Type} (f : α → Except ε β) :
    ∀ (l : List α) (l' : List β), exceptTraverse f l = .ok l' → l'.length = l.length := by
  intro l
  induction l with
  | nil =>
    intro l' h
    simp only [exceptTraverse, Except.ok.injEq] at h
    subst h
    rfl
  | cons a as ih =>
    intro l' h
    cases hfa : f a with
    | error e => simp [exceptTraverse, hfa] at h
    | ok x =>
      cases has : exceptTraverse f as with
      | error e => simp [exceptTraverse, hfa, has] at h
      | ok xs =>
        simp only [exceptTraverse, hfa, has, Except.ok.injEq] at h
        subst h
        simp [ih xs has]

theorem exceptTraverse_error_of_mem {α β ε : Type} (f : α → Except ε β) :
    ∀ (l : List α), (∃ a ∈ l, ∃ e, f a = .error e) → ∃ e, exceptTraverse f l = .error e := by
  intro l
  induction l with
  | nil => rintro ⟨a, ha, _⟩; simp at ha
  | cons a as ih =>
    rintro ⟨b, hb, e, hfb⟩
    rcases List.mem_cons.mp hb with hb | hb
    · subst hb
      cases hfa : f b with
      | error e' => exact ⟨e', by simp [exceptTraverse, hfa]⟩
      | ok x =>
        rw [hfa] at hfb
        cases hfb
    · cases hfa : f a with
      | error e' => exact ⟨e', by simp [exceptTraverse, hfa]⟩
      | ok x =>
        obtain ⟨e', has⟩ := ih ⟨b, hb, e, hfb⟩
        exact ⟨e', by simp [exceptTraverse, hfa, has]⟩

theorem buildMesh_material (file_name : String) (tm : TobjModel) (mesh : Mesh)
    (h : buildMesh file_name tm = some mesh) :
    mesh.material = tm.mesh.material_id.getD 0 := by
  unfold buildMesh at h
  cases hv : optionTraverse (buildVertex tm.mesh) (List.range (tm.mesh.positions.length / 3)) with
  | none => simp [hv] at h
  | some vs =>
    simp only [hv, Option.pure_def, Option.bind_eq_bind, Option.some_bind,
      Option.some.injEq] at h
    subst h
    rfl

/-! ## Claims -/

/-- C4: for every call to `GameState::resize` with positive width and height,
afterwards the camera's aspect equals width/height, the surface
configuration's stored dimensions equal the call's arguments, the stored size
equals the new size, and the depth texture is a newly created one sized from
the updated configuration. -/
theorem resize_updates_state (s : GameState) (new_size : PhysicalSize)
    (hw : 0 < new_size.width) (hh : 0 < new_size.height) :
    (s.resize new_size).camera.aspect = (new_size.width : ℚ) / (new_size.height : ℚ) ∧
    (s.resize new_size).config.width = new_size.width ∧
    (s.resize new_size).config.height = new_size.height ∧
    (s.resize new_size).size = new_size ∧
    (s.resize new_size).depth_texture =
      Texture.create_depth_texture (s.resize new_size).config "depth_texture" ∧
    (s.resize new_size).depth_texture.width = new_size.width ∧
    (s.resize new_size).depth_texture.height = new_size.height := by
  simp [GameState.resize, hw, hh, Texture.create_depth_texture]

/-- Witness for C4: resizing the sample 1280×720 state to 640×480. -/
theorem resize_updates_state_witness :
    (gsEx.resize ⟨640, 480⟩).camera.aspect = ((640 : Nat) : ℚ) / ((480 : Nat) : ℚ) ∧
    (gsEx.resize ⟨640, 480⟩).config.width = 640 ∧
    (gsEx.resize ⟨640, 480⟩).config.height = 480 ∧
    (gsEx.resize ⟨640, 480⟩).size = ⟨640, 480⟩ ∧
    (gsEx.resize ⟨640, 480⟩).depth_texture =
      Texture.create_depth_texture (gsEx.resize ⟨640, 480⟩).config "depth_texture" ∧
    (gsEx.resize ⟨640, 480⟩).depth_texture.width = 640 ∧
    (gsEx.resize ⟨640, 480⟩).depth_texture.height = 480 :=
  resize_updates_state gsEx ⟨640, 480⟩ (by decide) (by decide)

/-- C5: for every call to `GameState::resize` with width 0 or height 0, all
prior state is left unchanged — the call is a no-op. -/
theorem resize_zero_noop (s : GameState) (new_size : PhysicalSize)
    (h : new_size.width = 0 ∨ new_size.height = 0) :
    s.resize new_size = s := by
  rcases h with h | h <;> simp [GameState.resize, h]

/-- Witness for C5: resizing the sample state to 0×480 changes nothing. -/
theorem resize_zero_noop_witness : gsEx.resize ⟨0, 480⟩ = gsEx :=
  resize_zero_noop gsEx ⟨0, 480⟩ (Or.inl rfl)

/-- Counterexample to C1 as stated: on a model with two meshes, the second
referencing material 1, the successful-frame trace contains no draw covering
the second mesh's indices and never binds material 1's bind group — `render`
draws only `meshes[0]` with `materials[0]`. -/
theorem render_each_mesh_cex : ¬ claimC1Property gsTwoMesh := by
  intro h
  obtain ⟨-, -, -, -, -, hall, -, -⟩ := h
  obtain ⟨-, -, hdraw⟩ := hall meshB (by decide)
  exact absurd hdraw (by decide)

/-- C1 (amended): on a successful frame, `render` records exactly one render
pass that clears the color target to `(0.1, 0.2, 0.3, 1.0)` and the depth
target to `1.0`, binds the instance buffer at vertex-buffer slot 1, binds the
render pipeline, and — for the **first** mesh of the model only — binds the
**first** material's bind group at slot 0 and the camera bind group at
slot 1, binds that mesh's vertex buffer at slot 0 and its index buffer, and
issues one indexed, instanced draw covering all of that mesh's indices for
the full instance range `[0, instances.len())`; it then submits to the queue
and presents. -/
theorem render_success_trace (s : GameState)
    (mesh0 : Mesh) (meshRest : List Mesh) (material0 : Material) (matRest : List Material)
    (hm : s.obj_model.meshes = mesh0 :: meshRest)
    (hmat : s.obj_model.materials = material0 :: matRest) :
    s.render (.ok ()) = some (.ok (),
      [Cmd.beginRenderPass ⟨1/10, 2/10, 3/10, 1⟩ 1,
       Cmd.setVertexBuffer 1 s.instance_buffer,
       Cmd.setPipeline,
       Cmd.setBindGroup 0 material0.bind_group,
       Cmd.setBindGroup 1 s.camera_bind_group,
       Cmd.setVertexBuffer 0 mesh0.vertex_buffer,
       Cmd.setIndexBuffer mesh0.index_buffer,
       Cmd.drawIndexed 0 mesh0.num_elements 0 0 s.instances.length,
       Cmd.endRenderPass, Cmd.submit, Cmd.present]) ∧
    ([Cmd.beginRenderPass ⟨1/10, 2/10, 3/10, 1⟩ 1,
      Cmd.setVertexBuffer 1 s.instance_buffer,
      Cmd.setPipeline,
      Cmd.setBindGroup 0 material0.bind_group,
      Cmd.setBindGroup 1 s.camera_bind_group,
      Cmd.setVertexBuffer 0 mesh0.vertex_buffer,
      Cmd.setIndexBuffer mesh0.index_buffer,
      Cmd.drawIndexed 0 mesh0.num_elements 0 0 s.instances.length,
      Cmd.endRenderPass, Cmd.submit, Cmd.present].countP Cmd.isBeginRenderPass) = 1 := by
  constructor
  · simp [GameState.render, Except.toOption, hm, hmat, draw_mesh_instanced]
  · simp [List.countP_cons, Cmd.isBeginRenderPass]

/-- Witness for C1 (amended): the one-mesh sample state records exactly the
expected trace. -/
theorem render_success_trace_witness :
    gsEx.render (.ok ()) = some (.ok (), gsExTrace) ∧ gsExTrace.countP Cmd.isBeginRenderPass = 1 :=
  render_success_trace gsEx meshA [] matA [] rfl rfl

/-- C2 (the code as it stands): `render` converts the surface-acquisition
`Result` to an `Option` and unwraps it, so every acquisition failure —
including the recoverable lost/outdated conditions the claim describes — is a
panic (`none`), never a returned error; the dispatcher's `Err(Lost)` resize
arm is consequently unreachable, and the dispatch aborts inside `render`. -/
theorem render_panics_on_surface_error (s : GameState) :
    s.render (.error .lost) = none ∧
    s.render (.error .outdated) = none ∧
    s.render (.error .outOfMemory) = none ∧
    redrawRequested s (.error .lost) = (.panicked, [AppCall.update, AppCall.renderCall]) ∧
    redrawRequested s (.error .outdated) = (.panicked, [AppCall.update, AppCall.renderCall]) := by
  refine ⟨rfl, rfl, rfl, ?_, ?_⟩ <;> simp [redrawRequested, GameState.render, Except.toOption]

/-- C3 (the code as it stands): on every `RedrawRequested` dispatch whose
render returns (necessarily successfully), the handler performs a **second**
`update()` after the render — the call sequence is
`[update, render, update, request_redraw]`, not one update with none after
the render. -/
theorem update_called_again_after_render (s : GameState)
    (acquired : Except SurfaceError Unit) (rt : Except SurfaceError Unit × List Cmd)
    (h : s.render acquired = some rt) :
    (redrawRequested s acquired).2 =
      [AppCall.update, AppCall.renderCall, AppCall.update, AppCall.requestRedraw] := by
  cases acquired with
  | error e => simp [GameState.render, Except.toOption] at h
  | ok u =>
    cases hm : s.obj_model.meshes with
    | nil => simp [GameState.render, Except.toOption, hm] at h
    | cons mesh0 meshRest =>
      cases hmat : s.obj_model.materials with
      | nil => simp [GameState.render, Except.toOption, hm, hmat] at h
      | cons material0 matRest =>
        simp [redrawRequested, GameState.render, Except.toOption, hm, hmat]

/-- Witness for C3's theorem: the sample state's dispatch performs the
double update. -/
theorem update_called_again_after_render_witness :
    (redrawRequested gsEx (.ok ())).2 =
      [AppCall.update, AppCall.renderCall, AppCall.update, AppCall.requestRedraw] :=
  update_called_again_after_render gsEx (.ok ()) (.ok (), gsExTrace) (by rfl)

/-- C10: whenever `render` returns at all, its result is `Ok(())` — no
`SurfaceError` value is ever returned to the caller — and the dispatcher's
match on the result therefore always takes the `Ok` arm, never the Lost,
OutOfMemory or other-error arms. -/
theorem render_result_always_ok (s : GameState)
    (acquired : Except SurfaceError Unit) (rt : Except SurfaceError Unit × List Cmd)
    (h : s.render acquired = some rt) :
    rt.1 = .ok () ∧ (redrawRequested s acquired).1 = FrameOutcome.presented := by
  cases acquired with
  | error e => simp [GameState.render, Except.toOption] at h
  | ok u =>
    cases hm : s.obj_model.meshes with
    | nil => simp [GameState.render, Except.toOption, hm] at h
    | cons mesh0 meshRest =>
      cases hmat : s.obj_model.materials with
      | nil => simp [GameState.render, Except.toOption, hm, hmat] at h
      | cons material0 matRest =>
        simp only [GameState.render, Except.toOption, hm, hmat, Option.some.injEq] at h
        subst h
        simp [redrawRequested, GameState.render, Except.toOption, hm, hmat]

/-- Witness for C10: the sample state's render returns `Ok(())` and its
dispatch takes the success arm. -/
theorem render_result_always_ok_witness :
    ((Except.ok (), gsExTrace) : Except SurfaceError Unit × List Cmd).1 = .ok () ∧
    (redrawRequested gsEx (.ok ())).1 = FrameOutcome.presented :=
  render_result_always_ok gsEx (.ok ()) (.ok (), gsExTrace) (by rfl)

/-- C7: `Instances::to_raw` is pure and deterministic, and for every
(position, rotation) it produces the 4×4 matrix equal to
translation(position) composed with rotation(quaternion) — the quaternion's
rotation matrix with the position placed in the fourth column. -/
theorem to_raw_spec (i : Instances) :
    i.to_raw = ⟨translationComposedRotation i.position i.rotation⟩ ∧
    i.to_raw = i.to_raw := by
  refine ⟨?_, rfl⟩
  cases i with
  | mk p q =>
    simp only [Instances.to_raw, translationComposedRotation, Matrix4.from_translation,
      Matrix4.from_quaternion, Mat4.mul, Mat4.mulVec, InstanceRaw.mk.injEq, Mat4.mk.injEq,
      Vec4.mk.injEq]
    norm_num

/-- The position coordinate `3·(n − 10/2)` vanishes exactly at `n = 5`. -/
theorem grid_coord_eq_zero (n : Nat) :
    (3 : ℚ) * ((n : ℚ) - (num_instances_per_row : ℚ) / 2) = 0 ↔ n = 5 := by
  have h5 : (num_instances_per_row : ℚ) / 2 = 5 := by norm_num [num_instances_per_row]
  rw [h5, mul_eq_zero]
  constructor
  · rintro (h | h)
    · norm_num at h
    · have hn : (n : ℚ) = 5 := by linarith
      exact_mod_cast hn
  · rintro rfl
    norm_num

set_option maxRecDepth 4000 in
/-- C6: the instance list built at initialization has exactly
N³ = 10³ = 1000 entries; the instance at grid coordinates
`(x,y,z) = (5,5,5)` — flat index `5·100 + 5·10 + 5` under the `z, x, y` loop
nesting — has position `(0,0,0)` and carries `from_axis_angle(unit_z, 0°)`,
the identity rotation; it is the unique grid cell with the zero position;
and every other instance's rotation is the 45° rotation about its own
normalized position vector. -/
theorem instances_grid_spec :
    instancesGrid.length = 1000 ∧
    instancesGrid.get? (5 * 100 + 5 * 10 + 5) =
      some ⟨⟨0, 0, 0⟩, .from_axis_angle .unit_z 0⟩ ∧
    (gridInstance 5 5 5).rotation.isIdentity ∧
    (∀ z x y : Nat, (gridInstance z x y).position = ⟨0, 0, 0⟩ ↔ z = 5 ∧ x = 5 ∧ y = 5) ∧
    ∀ inst ∈ instancesGrid, inst.position ≠ ⟨0, 0, 0⟩ →
      inst.rotation = .from_axis_angle (.normalize inst.position) 45 := by
  refine ⟨?_, ?_, ?_, ?_, ?_⟩
  · rfl
  · with_unfolding_all rfl
  · with_unfolding_all decide
  · intro z x y
    simp only [gridInstance, Vec3.mk.injEq]
    rw [grid_coord_eq_zero, grid_coord_eq_zero, grid_coord_eq_zero]
    tauto
  · intro inst hmem hne
    simp only [instancesGrid, List.mem_flatMap, List.mem_map, List.mem_range] at hmem
    obtain ⟨z, hz, x, hx, y, hy, rfl⟩ := hmem
    simp only [gridInstance] at hne ⊢
    rw [if_neg]
    intro h0
    exact hne (by simp [gridInstance, h0])

/-- Counterexample to C8 as stated: an obj source with one mesh that
specifies no material id and an empty material list.  `load_model` returns a
model whose single mesh has material index 0 while the materials list is
empty, so the index is not valid. -/
theorem load_model_material_index_cex :
    ¬ materialIndexValidOn
        (load_model "cube.obj" (.ok ([tobjModelNoMat], .ok [])) fun _ => .error "missing") := by
  intro h
  exact absurd
    (h ⟨"cube.obj", ⟨"cube.obj Vertex Buffer", .vertexData []⟩,
        ⟨"cube.obj Index Buffer", .indexData []⟩, 0, 0⟩ (by decide))
    (by decide)

/-- C8 (amended): for every `Model` returned by `load_model`, each mesh's
material index equals the source mesh's material id when specified and 0
otherwise; provided every specified id is in range of the source material
list, and that list is nonempty whenever some mesh leaves its id
unspecified, each mesh's material index is a valid index into the model's
materials list. -/
theorem load_model_material_index_amended
    (file_name : String) (models : List TobjModel) (mats : List TobjMaterial)
    (loadTexture : String → Except LoadError Texture) (model : Model)
    (hload : load_model file_name (.ok (models, .ok mats)) loadTexture = some (.ok model))
    (hids : ∀ tm ∈ models, ∀ i, tm.mesh.material_id = some i → i < mats.length)
    (hnone : ∀ tm ∈ models, tm.mesh.material_id = none → mats ≠ []) :
    ∀ mesh ∈ model.meshes,
      (∃ tm ∈ models, mesh.material = tm.mesh.material_id.getD 0) ∧
      mesh.material < model.materials.length := by
  simp only [load_model] at hload
  cases hmm : exceptTraverse (loadMaterial loadTexture) mats with
  | error e => rw [hmm] at hload; cases hload
  | ok materials =>
    rw [hmm] at hload
    cases hbm : optionTraverse (buildMesh file_name) models with
    | none => rw [hbm] at hload; cases hload
    | some meshes =>
      rw [hbm] at hload
      simp only [Option.some.injEq, Except.ok.injEq] at hload
      subst hload
      intro mesh hmesh
      obtain ⟨tm, htm, hbuild⟩ := optionTraverse_mem (buildMesh file_name) models meshes hbm mesh hmesh
      have hmat := buildMesh_material file_name tm mesh hbuild
      have hlen : materials.length = mats.length :=
        exceptTraverse_length (loadMaterial loadTexture) mats materials hmm
      refine ⟨⟨tm, htm, hmat⟩, ?_⟩
      show mesh.material < materials.length
      rw [hlen]
      cases hid : tm.mesh.material_id with
      | some i =>
        rw [hid] at hmat
        simp only [Option.getD_some] at hmat
        rw [hmat]
        exact hids tm htm i hid
      | none =>
        rw [hid] at hmat
        simp only [Option.getD_none] at hmat
        rw [hmat]
        exact List.length_pos.mpr (hnone tm htm hid)

/-- Witness for C8 (amended): one source mesh with no material id and one
material whose texture loads; the returned mesh's material index is 0 and
valid. -/
theorem load_model_material_index_amended_witness :
    (∃ tm ∈ [tobjModelNoMat], meshW.material = tm.mesh.material_id.getD 0) ∧
    meshW.material < modelW.materials.length :=
  load_model_material_index_amended "cube.obj" [tobjModelNoMat] [tobjMatEx]
    (fun _ => .ok texA) modelW (by rfl)
    (by
      intro tm htm i hi
      rw [List.mem_singleton] at htm
      subst htm
      simp [tobjModelNoMat] at hi)
    (by
      intro tm htm hn
      simp)
    meshW (by simp [modelW])

/-- C9: if the diffuse texture of any material fails to load, `load_model`
returns an error — it never returns a `Model` — and the `unwrap` in
`GameState::new` then panics, so no partial game state is constructed. -/
theorem load_model_texture_failure_all_or_nothing
    (file_name : String) (models : List TobjModel) (mats : List TobjMaterial)
    (loadTexture : String → Except LoadError Texture)
    (hfail : ∃ m ∈ mats, ∃ e, loadTexture m.diffuse_texture = .error e) :
    (∃ e, load_model file_name (.ok (models, .ok mats)) loadTexture = some (.error e)) ∧
    (∀ model, load_model file_name (.ok (models, .ok mats)) loadTexture ≠ some (.ok model)) ∧
    gameStateNewModelLoad (load_model file_name (.ok (models, .ok mats)) loadTexture) = none := by
  have hfail' : ∃ m ∈ mats, ∃ e, loadMaterial loadTexture m = .error e := by
    obtain ⟨m, hm, e, he⟩ := hfail
    exact ⟨m, hm, e, by simp [loadMaterial, he]⟩
  obtain ⟨e', hmm⟩ := exceptTraverse_error_of_mem (loadMaterial loadTexture) mats hfail'
  refine ⟨⟨e', ?_⟩, ?_, ?_⟩
  · simp only [load_model]
    rw [hmm]
  · intro model hcontra
    simp only [load_model] at hcontra
    rw [hmm] at hcontra
    simp at hcontra
  · simp only [load_model]
    rw [hmm]
    rfl

/-- Witness for C9: a single material whose texture load fails makes
`load_model` return that error and the initialization step produce no
model. -/
theorem load_model_texture_failure_witness :
    (∃ e, load_model "cube.obj" (.ok ([tobjModelNoMat], .ok [tobjMatEx]))
        (fun _ => .error "missing file") = some (.error e)) ∧
    (∀ model, load_model "cube.obj" (.ok ([tobjModelNoMat], .ok [tobjMatEx]))
        (fun _ => .error "missing file") ≠ some (.ok model)) ∧
    gameStateNewModelLoad (load_model "cube.obj" (.ok ([tobjModelNoMat], .ok [tobjMatEx]))
        (fun _ => .error "missing file")) = none :=
  load_model_texture_failure_all_or_nothing "cube.obj" [tobjModelNoMat] [tobjMatEx]
    (fun _ => .error "missing file")
    ⟨tobjMatEx, List.mem_singleton.mpr rfl, "missing file", rfl⟩

end Render
